import Mathlib

/-!
Shallow embedding of the Smart_AttendanceTracker admission-control core
(src/app.py, src/app1.py) and proofs about it.

Python strings are modelled as Lean `String`; the Python string
operations used by the code (str.lower, str.strip, str.startswith,
str.replace("qr_", ""), int(...)) are defined below by structural
recursion over the character list, restricted to the ASCII data the
application handles, so that every definition evaluates inside the
kernel.  Python's arbitrary-precision integers are modelled as `Int`,
its floats as `ℝ` (the code's arithmetic is exact real arithmetic in
this model).  CSV tables are modelled as lists of records, one record
per row, in file order; a pandas filter is `List.filter`, `.iloc[0]`
is `List.head?`, and `pd.concat([df, row])` is `l ++ [row]`.
-/

namespace SmartAttendance

/-- ASCII lowering of one character, modelling what Python's str.lower
does on the ASCII identifiers this application stores. -/
def lowerChar (c : Char) : Char := c.toLower

/-- Model of Python str.lower on ASCII strings. -/
def pyLower (s : String) : String := ⟨s.data.map lowerChar⟩

/-- Model of Python str.strip: drop whitespace from both ends. -/
def pyTrim (s : String) : String :=
  ⟨((s.data.dropWhile Char.isWhitespace).reverse.dropWhile Char.isWhitespace).reverse⟩

/-- Case-insensitive string comparison, modelling the pervasive
pattern `a.lower() == b.lower()` of the source. -/
def lowerEq (a b : String) : Bool := pyLower a == pyLower b

/-- Model of `token.replace("qr_", "")`: scan left to right deleting
each non-overlapping occurrence of the pattern "qr_". -/
def replaceQr : List Char → List Char
  | 'q' :: 'r' :: '_' :: rest => replaceQr rest
  | c :: rest => c :: replaceQr rest
  | [] => []

/-- Model of `token.startswith("qr_")`. -/
def startsWithQr (s : String) : Bool :=
  match s.data with
  | 'q' :: 'r' :: '_' :: _ => true
  | _ => false

/-- Decimal digit value of a character, if it is a digit. -/
def digitVal? (c : Char) : Option Nat :=
  if 48 ≤ c.toNat ∧ c.toNat ≤ 57 then some (c.toNat - 48) else none

/-- Accumulate decimal digits; fails on any non-digit. -/
def natOfDigits : Nat → List Char → Option Nat
  | n, [] => some n
  | n, c :: cs =>
    match digitVal? c with
    | some d => natOfDigits (n * 10 + d) cs
    | none => none

/-- Model of Python `int(s)` on optionally negated decimal strings:
returns none (the ValueError path) when the string is not a plain
optionally-signed nonempty digit string. -/
def pyToInt? (s : String) : Option Int :=
  match s.data with
  | [] => none
  | ['-'] => none
  | '-' :: cs => (natOfDigits 0 cs).map (fun n => -(n : Int))
  | cs => (natOfDigits 0 cs).map (fun n => (n : Int))

/-! ## Token freshness check (src/app1.py, check_qr_access) -/

/-- Outcome of check_qr_access.  The source returns (bool, message);
the expired message interpolates the observed age, modelled here as
the payload of the expired constructor. -/
inductive QrAccess where
  | granted
  | expired (age : Int)
  | invalidFormat
  | denied
  deriving DecidableEq

/-- Embedding of check_qr_access (src/app1.py lines 52-82): given the
current time, the access token from the URL (if any) and the
session's already-granted flag, decide access.  A "qr_"-prefixed
token is parsed by `int(token.replace("qr_", ""))`; the age
`now - t0` is admitted iff it is at most 20 seconds, and the
rejection carries the observed age. -/
def check_qr_access (now : Int) (token? : Option String) (sessionGranted : Bool) : QrAccess :=
  match token? with
  | some token =>
    if startsWithQr token then
      match pyToInt? ⟨replaceQr token.data⟩ with
      | some t0 => if now - t0 ≤ 20 then .granted else .expired (now - t0)
      | none => .invalidFormat
    else if sessionGranted then .granted else .denied
  | none => if sessionGranted then .granted else .denied

/-! ## Geometry (src/app1.py, calculate_distance / check_location /
check_location_in_range) -/

open Real in
/-- Model of math.atan2 on the reals. -/
noncomputable def atan2 (y x : ℝ) : ℝ :=
  if 0 < x then arctan (y / x)
  else if x < 0 then
    (if 0 ≤ y then arctan (y / x) + π else arctan (y / x) - π)
  else if 0 < y then π / 2
  else if y < 0 then -(π / 2)
  else 0

/-- Model of math.radians: degrees to radians. -/
noncomputable def radians (x : ℝ) : ℝ := x * Real.pi / 180

/-- Embedding of calculate_distance (src/app1.py lines 331-346):
haversine great-circle distance in metres on a sphere of radius
6,371,000 m. -/
noncomputable def calculate_distance (lat1 lon1 lat2 lon2 : ℝ) : ℝ :=
  let R : ℝ := 6371000
  let lat1_rad := radians lat1
  let lat2_rad := radians lat2
  let delta_lat := radians (lat2 - lat1)
  let delta_lon := radians (lon2 - lon1)
  let a := Real.sin (delta_lat / 2) ^ 2 +
    Real.cos lat1_rad * Real.cos lat2_rad * Real.sin (delta_lon / 2) ^ 2
  let c := 2 * atan2 (Real.sqrt a) (Real.sqrt (1 - a))
  R * c

def COLLEGE_LATITUDE : ℝ := 17.385044
def COLLEGE_LONGITUDE : ℝ := 78.486671
def ALLOWED_RADIUS_METERS : ℝ := 500

/-- Embedding of check_location (src/app1.py lines 102-105): in-range
iff the haversine distance to the college constants is at most the
allowed radius; also reports the distance. -/
noncomputable def check_location (user_lat user_lon : ℝ) : Prop × ℝ :=
  let distance := calculate_distance COLLEGE_LATITUDE COLLEGE_LONGITUDE user_lat user_lon
  (distance ≤ ALLOWED_RADIUS_METERS, distance)

/-- Embedding of check_location_in_range (src/app1.py lines 211-235):
an independent haversine in kilometres against its own hard-coded
campus coordinates (17.3850, 78.4867) with a 0.5 km radius. -/
noncomputable def check_location_in_range (user_lat user_lon : ℝ) : Prop × ℝ :=
  let COLLEGE_LAT : ℝ := 17.3850
  let COLLEGE_LON : ℝ := 78.4867
  let ALLOWED_RADIUS_KM : ℝ := 0.5
  let R : ℝ := 6371
  let lat1 := radians COLLEGE_LAT
  let lon1 := radians COLLEGE_LON
  let lat2 := radians user_lat
  let lon2 := radians user_lon
  let dlat := lat2 - lat1
  let dlon := lon2 - lon1
  let a := Real.sin (dlat / 2) ^ 2 +
    Real.cos lat1 * Real.cos lat2 * Real.sin (dlon / 2) ^ 2
  let c := 2 * atan2 (Real.sqrt a) (Real.sqrt (1 - a))
  let distance := R * c
  (distance ≤ ALLOWED_RADIUS_KM, distance)

/-! ## Data model (src/app1.py tables) -/

/-- One row of students_new.csv. -/
structure Student where
  rollnumber : String
  studentname : String
  branch : String
  deriving DecidableEq

/-- One row of device_binding.csv as used by mark_attendance_qr
(columns rollnumber, device_id). -/
structure DeviceBinding where
  rollnumber : String
  device_id : String
  deriving DecidableEq

/-- One row of attendance_new.csv.  The location cell holds the
client-reported coordinate pair and the distance cell the integer
part of the computed distance (the source formats both into
strings; the numeric content is modelled). -/
structure AttRecord where
  rollnumber : String
  studentname : String
  timestamp : String
  datestamp : String
  location : ℝ × ℝ
  distance_from_college : Int

/-- Whitespace-trimming of the three roster columns, modelling the
str.strip applied to the loaded students_new DataFrame. -/
def trimStudents (students : List Student) : List Student :=
  students.map (fun s => ⟨pyTrim s.rollnumber, pyTrim s.studentname, pyTrim s.branch⟩)

/-- The roster filter of mark_attendance_qr: rows matching roll, name
and branch simultaneously, each case-insensitively. -/
def findStudent (students : List Student) (r n b : String) : List Student :=
  students.filter (fun s =>
    lowerEq s.rollnumber r && (lowerEq s.studentname n && lowerEq s.branch b))

/-- The single-field diagnostic filters of the student-not-found
branch: does no roster row match the given roll number? -/
def rollNoMatch (students : List Student) (r : String) : Bool :=
  (students.filter (fun s => lowerEq s.rollnumber r)).isEmpty

/-- Does no roster row match the given student name? -/
def nameNoMatch (students : List Student) (n : String) : Bool :=
  (students.filter (fun s => lowerEq s.studentname n)).isEmpty

/-- Does no roster row match the given branch? -/
def branchNoMatch (students : List Student) (b : String) : Bool :=
  (students.filter (fun s => lowerEq s.branch b)).isEmpty

/-- The binding-table filter: rows whose rollnumber matches the
claimed one case-insensitively. -/
def findBinding (bindings : List DeviceBinding) (r : String) : List DeviceBinding :=
  bindings.filter (fun x => lowerEq x.rollnumber r)

/-- The duplicate filter: ledger rows with the same roll number
(case-insensitively) and today's datestamp. -/
def findMarked (attendance : List AttRecord) (r today : String) : List AttRecord :=
  attendance.filter (fun a => lowerEq a.rollnumber r && a.datestamp == today)

/-- Outcome of mark_attendance_qr.  The source returns (bool, message
string); the distinct messages are modelled as constructors, with the
numeric payloads the messages interpolate. -/
inductive Reason where
  | unknownIdentity (rollFailed nameFailed branchFailed : Bool)
  | locationTooFar (distance : ℝ)
  | locationRequired
  | deviceMismatch
  | alreadyMarked
  | success (distance : ℝ)

/-- Result of one call to mark_attendance_qr: the outcome plus the
device-binding table and attendance ledger as left on disk. -/
structure MarkOut where
  reason : Reason
  bindings : List DeviceBinding
  attendance : List AttRecord

/-- Final stage of mark_attendance_qr (src/app1.py lines 415-440):
the duplicate check against today's ledger rows, then the ledger
append.  It receives the binding table as already written by the
device stage. -/
noncomputable def dupStage (bindings : List DeviceBinding) (attendance : List AttRecord)
    (today nowTime r n : String) (la lo distance : ℝ) : MarkOut :=
  if (findMarked attendance r today).isEmpty then
    { reason := .success distance,
      bindings := bindings,
      attendance := attendance ++ [⟨r, n, nowTime, today, (la, lo), ⌊distance⌋⟩] }
  else
    { reason := .alreadyMarked, bindings := bindings, attendance := attendance }

/-- Device-binding stage of mark_attendance_qr (src/app1.py lines
395-413): look up the claimed roll number in the binding table; a row
bound to a different device rejects, a row with the same device
passes, and an absent row binds the current device (written to disk
immediately) before the duplicate check runs. -/
noncomputable def deviceStage (bindings : List DeviceBinding) (attendance : List AttRecord)
    (device_id today nowTime r n : String) (la lo distance : ℝ) : MarkOut :=
  match (findBinding bindings r).head? with
  | some row =>
    if row.device_id ≠ device_id then
      { reason := .deviceMismatch, bindings := bindings, attendance := attendance }
    else
      dupStage bindings attendance today nowTime r n la lo distance
  | none =>
    dupStage (bindings ++ [⟨r, device_id⟩]) attendance today nowTime r n la lo distance

/-- Embedding of mark_attendance_qr (src/app1.py lines 350-440): trim
the inputs and the roster, validate the identity triple (diagnosing
which fields individually failed), check the geofence when
coordinates are supplied, then run the device and duplicate stages. -/
noncomputable def mark_attendance_qr (students : List Student) (bindings : List DeviceBinding)
    (attendance : List AttRecord) (device_id today nowTime : String)
    (rollnumber studentname branch : String) (user_lat user_lon : Option ℝ) : MarkOut :=
  let r := pyTrim rollnumber
  let n := pyTrim studentname
  let b := pyTrim branch
  let students' := trimStudents students
  if (findStudent students' r n b).isEmpty then
    { reason := .unknownIdentity (rollNoMatch students' r) (nameNoMatch students' n)
        (branchNoMatch students' b),
      bindings := bindings, attendance := attendance }
  else
    match user_lat, user_lon with
    | some la, some lo =>
      let distance := calculate_distance COLLEGE_LATITUDE COLLEGE_LONGITUDE la lo
      if distance > ALLOWED_RADIUS_METERS then
        { reason := .locationTooFar distance, bindings := bindings, attendance := attendance }
      else
        deviceStage bindings attendance device_id today nowTime r n la lo distance
    | _, _ => { reason := .locationRequired, bindings := bindings, attendance := attendance }

/-! ## OTP verification (src/app.py, verify_otp) -/

/-- The per-session OTP store: a username-keyed dictionary of
(otp, expiry-time) pairs.  Expiry instants are modelled as Int
timestamps. -/
def OtpStore : Type := String → Option (String × Int)

/-- Python `del store[u]`. -/
def otpDelete (store : OtpStore) (u : String) : OtpStore :=
  fun v => if v = u then none else store v

/-- The three failure messages and the success message of verify_otp. -/
inductive OtpMsg where
  | noOtp
  | otpExpired
  | verified
  | incorrect
  deriving DecidableEq

/-- Embedding of verify_otp (src/app.py lines 595-608): look up the
username's stored (otp, expiry); report noOtp when absent; delete and
report expiry when past the deadline; delete and accept on a match;
keep the entry and report incorrect otherwise. -/
def verify_otp (store : OtpStore) (now : Int) (username input_otp : String) :
    Bool × OtpMsg × OtpStore :=
  match store username with
  | none => (false, .noOtp, store)
  | some (otp, expiry) =>
    if expiry < now then (false, .otpExpired, otpDelete store username)
    else if input_otp = otp then (true, .verified, otpDelete store username)
    else (false, .incorrect, store)

/-! ## General lemmas about the embedded definitions -/

theorem radians_sub (a b : ℝ) : radians a - radians b = radians (a - b) := by
  unfold radians; ring

theorem radians_neg_eq (x : ℝ) : radians (-x) = -radians x := by
  unfold radians; ring

theorem sin_neg_half_sq (x : ℝ) : Real.sin (-x / 2) ^ 2 = Real.sin (x / 2) ^ 2 := by
  rw [neg_div, Real.sin_neg]; ring

theorem atan2_pos_x (y x : ℝ) (hx : 0 < x) : atan2 y x = Real.arctan (y / x) := by
  unfold atan2; rw [if_pos hx]

theorem arctan_le_self {t : ℝ} (ht : 0 ≤ t) : Real.arctan t ≤ t := by
  rcases eq_or_lt_of_le ht with h | h
  · rw [← h, Real.arctan_zero]
  · have h1 : 0 < Real.arctan t := by
      rw [← Real.arctan_zero]
      exact Real.arctan_strictMono h
    have h2 := Real.lt_tan h1 (Real.arctan_lt_pi_div_two t)
    rw [Real.tan_arctan] at h2
    exact le_of_lt h2

theorem calculate_distance_self (lat lon : ℝ) : calculate_distance lat lon lat lon = 0 := by
  unfold calculate_distance
  simp only [sub_self]
  have hr : radians 0 = 0 := by unfold radians; ring
  rw [hr]
  norm_num [Real.sin_zero, atan2_pos_x 0 1 one_pos, Real.arctan_zero]

theorem calculate_distance_comm (lat1 lon1 lat2 lon2 : ℝ) :
    calculate_distance lat1 lon1 lat2 lon2 = calculate_distance lat2 lon2 lat1 lon1 := by
  have h1 : radians (lat1 - lat2) = -radians (lat2 - lat1) := by
    rw [← radians_neg_eq]; ring_nf
  have h2 : radians (lon1 - lon2) = -radians (lon2 - lon1) := by
    rw [← radians_neg_eq]; ring_nf
  simp only [calculate_distance]
  rw [h1, h2, sin_neg_half_sq, sin_neg_half_sq]
  ring_nf

/-! ## Claim C1 -/

/-- C1: for every token of the form "qr_" + t0 presented at time now,
check_qr_access accepts iff now - t0 ≤ 20 (an age of exactly 20
accepts, of 21 rejects), and a rejection carries the observed age. -/
theorem qr_freshness_window (tok : String) (t0 now : Int) (sess : Bool)
    (hform : startsWithQr tok = true)
    (hparse : pyToInt? ⟨replaceQr tok.data⟩ = some t0) :
    (check_qr_access now (some tok) sess = .granted ↔ now - t0 ≤ 20)
    ∧ (20 < now - t0 → check_qr_access now (some tok) sess = .expired (now - t0)) := by
  have h : check_qr_access now (some tok) sess =
      (if now - t0 ≤ 20 then QrAccess.granted else .expired (now - t0)) := by
    simp only [check_qr_access, hform, if_true, hparse]
  rw [h]
  constructor
  · constructor
    · intro hg
      by_contra hle
      rw [if_neg hle] at hg
      exact absurd hg (by simp)
    · intro hle; rw [if_pos hle]
  · intro hgt
    rw [if_neg (not_le.mpr hgt)]

/-- Witness for C1 at the concrete token "qr_100" seen at times 115
(age 15, accepted) and 121 (age 21, rejected with reported age 21). -/
theorem qr_freshness_window_witness :
    (startsWithQr "qr_100" = true)
    ∧ (pyToInt? ⟨replaceQr "qr_100".data⟩ = some 100)
    ∧ ((check_qr_access 115 (some "qr_100") false = .granted ↔ (115 : Int) - 100 ≤ 20)
       ∧ (20 < (115 : Int) - 100 →
           check_qr_access 115 (some "qr_100") false = .expired (115 - 100)))
    ∧ ((check_qr_access 121 (some "qr_100") false = .granted ↔ (121 : Int) - 100 ≤ 20)
       ∧ (20 < (121 : Int) - 100 →
           check_qr_access 121 (some "qr_100") false = .expired (121 - 100))) :=
  ⟨by decide, by decide,
    qr_freshness_window "qr_100" 100 115 false (by decide) (by decide),
    qr_freshness_window "qr_100" 100 121 false (by decide) (by decide)⟩

/-! ## Claim C8 -/

/-- C8: the great-circle distance function is symmetric under swapping
its two coordinate points, and returns 0 when the two coordinates are
identical. -/
theorem calculate_distance_symm_and_zero :
    (∀ lat1 lon1 lat2 lon2 : ℝ,
      calculate_distance lat1 lon1 lat2 lon2 = calculate_distance lat2 lon2 lat1 lon1)
    ∧ (∀ lat lon : ℝ, calculate_distance lat lon lat lon = 0) :=
  ⟨calculate_distance_comm, calculate_distance_self⟩

/-! ## Claim C9 -/

theorem verify_otp_eq_of_some (store : OtpStore) (now : Int) (u i otp : String) (expiry : Int)
    (hs : store u = some (otp, expiry)) :
    verify_otp store now u i =
      if expiry < now then (false, .otpExpired, otpDelete store u)
      else if i = otp then (true, .verified, otpDelete store u)
      else (false, .incorrect, store) := by
  unfold verify_otp
  rw [hs]

theorem verify_otp_eq_of_none (store : OtpStore) (now : Int) (u i : String)
    (hs : store u = none) :
    verify_otp store now u i = (false, .noOtp, store) := by
  unfold verify_otp
  rw [hs]

/-- C9: a successful verify_otp deletes the stored entry, so an
immediately repeated call for the same user reports that no OTP was
sent; an entry found expired at verification time is likewise deleted
by the failing call. -/
theorem verify_otp_single_use :
    (∀ (store : OtpStore) (now : Int) (u i : String) (msg : OtpMsg) (store' : OtpStore),
      verify_otp store now u i = (true, msg, store') →
      store' u = none ∧ ∀ (now2 : Int) (i2 : String),
        verify_otp store' now2 u i2 = (false, .noOtp, store'))
    ∧ (∀ (store : OtpStore) (now : Int) (u i otp : String) (expiry : Int),
        store u = some (otp, expiry) → expiry < now →
        verify_otp store now u i = (false, .otpExpired, otpDelete store u)
        ∧ otpDelete store u u = none) := by
  constructor
  · intro store now u i msg store' h
    rcases hs : store u with _ | ⟨otp, expiry⟩
    · rw [verify_otp_eq_of_none store now u i hs] at h
      simp at h
    · rw [verify_otp_eq_of_some store now u i otp expiry hs] at h
      by_cases h1 : expiry < now
      · rw [if_pos h1] at h
        simp at h
      · rw [if_neg h1] at h
        by_cases h2 : i = otp
        · rw [if_pos h2] at h
          have hst : store' = otpDelete store u := by
            have h3 : (true, OtpMsg.verified, otpDelete store u).2.2 = (true, msg, store').2.2 :=
              congrArg (fun p => p.2.2) h
            exact h3.symm
          subst hst
          have hdel : otpDelete store u u = none := by
            unfold otpDelete
            rw [if_pos rfl]
          exact ⟨hdel, fun now2 i2 => verify_otp_eq_of_none (otpDelete store u) now2 u i2 hdel⟩
        · rw [if_neg h2] at h
          simp at h
  · intro store now u i otp expiry hs hexp
    constructor
    · rw [verify_otp_eq_of_some store now u i otp expiry hs, if_pos hexp]
    · unfold otpDelete
      rw [if_pos rfl]

/-- A concrete OTP store binding user "alice" to OTP "123456" with
expiry time 100, for the C9 witness. -/
def aliceStore : OtpStore :=
  fun v => if v = "alice" then some ("123456", 100) else none

/-- Witness for C9: verifying "123456" for "alice" at time 50 succeeds
and empties her entry, after which any repeat verification reports
noOtp; verifying at time 200 instead hits the expiry path, which also
deletes the entry. -/
theorem verify_otp_single_use_witness :
    (verify_otp aliceStore 50 "alice" "123456" = (true, .verified, otpDelete aliceStore "alice")
     ∧ (otpDelete aliceStore "alice" "alice" = none
        ∧ ∀ (now2 : Int) (i2 : String),
          verify_otp (otpDelete aliceStore "alice") now2 "alice" i2 =
            (false, .noOtp, otpDelete aliceStore "alice")))
    ∧ (aliceStore "alice" = some ("123456", 100) ∧ (100 : Int) < 200
       ∧ (verify_otp aliceStore 200 "alice" "000000" =
            (false, .otpExpired, otpDelete aliceStore "alice")
          ∧ otpDelete aliceStore "alice" "alice" = none)) :=
  ⟨⟨rfl, verify_otp_single_use.1 aliceStore 50 "alice" "123456" .verified
      (otpDelete aliceStore "alice") rfl⟩,
   rfl, by norm_num,
   verify_otp_single_use.2 aliceStore 200 "alice" "000000" "123456" 100 rfl (by norm_num)⟩

/-! ## Lemmas about the admission-control gate -/

theorem lowerEq_congr_right {r1 r2 : String} (h : pyLower r1 = pyLower r2) (a : String) :
    lowerEq a r1 = lowerEq a r2 := by
  unfold lowerEq
  rw [h]

theorem lowerEq_eq_true_iff (a b : String) : lowerEq a b = true ↔ pyLower a = pyLower b := by
  unfold lowerEq
  exact beq_iff_eq

theorem findStudent_congr_roll (l : List Student) {r1 r2 : String}
    (h : pyLower r1 = pyLower r2) (n b : String) :
    findStudent l r1 n b = findStudent l r2 n b := by
  unfold findStudent
  exact List.filter_congr (fun s _ => by rw [lowerEq_congr_right h])

theorem findBinding_congr (l : List DeviceBinding) {r1 r2 : String}
    (h : pyLower r1 = pyLower r2) :
    findBinding l r1 = findBinding l r2 := by
  unfold findBinding
  exact List.filter_congr (fun x _ => by rw [lowerEq_congr_right h])

theorem findMarked_congr (l : List AttRecord) {r1 r2 : String}
    (h : pyLower r1 = pyLower r2) (today : String) :
    findMarked l r1 today = findMarked l r2 today := by
  unfold findMarked
  exact List.filter_congr (fun a _ => by rw [lowerEq_congr_right h])

/-- Unfolding of mark_attendance_qr when the identity and geofence
checks pass: it hands over to the device stage. -/
theorem mark_pass (students : List Student) (bindings : List DeviceBinding)
    (attendance : List AttRecord) (device_id today nowTime roll name branch : String)
    (la lo : ℝ)
    (hstud : (findStudent (trimStudents students) (pyTrim roll) (pyTrim name)
        (pyTrim branch)).isEmpty = false)
    (hloc : ¬ (calculate_distance COLLEGE_LATITUDE COLLEGE_LONGITUDE la lo >
        ALLOWED_RADIUS_METERS)) :
    mark_attendance_qr students bindings attendance device_id today nowTime roll name branch
        (some la) (some lo)
      = deviceStage bindings attendance device_id today nowTime (pyTrim roll) (pyTrim name)
          la lo (calculate_distance COLLEGE_LATITUDE COLLEGE_LONGITUDE la lo) := by
  simp only [mark_attendance_qr, hstud, Bool.false_eq_true, if_false, if_neg hloc]

/-- Unfolding of mark_attendance_qr when the identity check fails. -/
theorem mark_fail_identity (students : List Student) (bindings : List DeviceBinding)
    (attendance : List AttRecord) (device_id today nowTime roll name branch : String)
    (user_lat user_lon : Option ℝ)
    (hstud : (findStudent (trimStudents students) (pyTrim roll) (pyTrim name)
        (pyTrim branch)).isEmpty = true) :
    mark_attendance_qr students bindings attendance device_id today nowTime roll name branch
        user_lat user_lon
      = ⟨.unknownIdentity (rollNoMatch (trimStudents students) (pyTrim roll))
            (nameNoMatch (trimStudents students) (pyTrim name))
            (branchNoMatch (trimStudents students) (pyTrim branch)),
          bindings, attendance⟩ := by
  simp only [mark_attendance_qr, hstud, if_true]

/-- The binding table as left on disk by the device stage when it does
not reject: unchanged if the claimed roll already has a row, extended
by the new binding otherwise. -/
def devWrite (bindings : List DeviceBinding) (r device_id : String) :
    List DeviceBinding :=
  match (findBinding bindings r).head? with
  | some _ => bindings
  | none => bindings ++ [⟨r, device_id⟩]

/-- Unfolding of the device stage when the claimed roll's binding row,
if any, carries the presented device. -/
theorem deviceStage_pass (bindings : List DeviceBinding) (attendance : List AttRecord)
    (device_id today nowTime r n : String) (la lo distance : ℝ)
    (hdev : ∀ row ∈ (findBinding bindings r).head?, row.device_id = device_id) :
    deviceStage bindings attendance device_id today nowTime r n la lo distance
      = dupStage (devWrite bindings r device_id) attendance today nowTime r n la lo distance := by
  unfold deviceStage devWrite
  cases hb : (findBinding bindings r).head? with
  | none => rfl
  | some row =>
    have hrow : row.device_id = device_id := hdev row (by rw [hb]; rfl)
    dsimp only
    rw [if_neg (not_not_intro hrow)]

theorem dupStage_fresh (bindings : List DeviceBinding) (attendance : List AttRecord)
    (today nowTime r n : String) (la lo distance : ℝ)
    (hm : (findMarked attendance r today).isEmpty = true) :
    dupStage bindings attendance today nowTime r n la lo distance
      = ⟨.success distance, bindings,
          attendance ++ [⟨r, n, nowTime, today, (la, lo), ⌊distance⌋⟩]⟩ := by
  unfold dupStage
  rw [if_pos hm]

theorem dupStage_dup (bindings : List DeviceBinding) (attendance : List AttRecord)
    (today nowTime r n : String) (la lo distance : ℝ)
    (hm : (findMarked attendance r today).isEmpty = false) :
    dupStage bindings attendance today nowTime r n la lo distance
      = ⟨.alreadyMarked, bindings, attendance⟩ := by
  unfold dupStage
  rw [if_neg (by simp [hm])]

/-! ## Claim C7 -/

/-- C7: when the claimed (roll, name, branch) triple matches no roster
row (case-insensitively), the request is rejected with an
unknown-identity outcome whose three diagnostic flags name exactly the
fields that individually matched no roster row, and neither table
changes. -/
theorem unknown_identity_diagnoses_fields (students : List Student)
    (bindings : List DeviceBinding) (attendance : List AttRecord)
    (device_id today nowTime roll name branch : String) (user_lat user_lon : Option ℝ)
    (hnone : ∀ s ∈ trimStudents students,
      ¬(pyLower s.rollnumber = pyLower (pyTrim roll)
        ∧ pyLower s.studentname = pyLower (pyTrim name)
        ∧ pyLower s.branch = pyLower (pyTrim branch))) :
    ∃ rollFailed nameFailed branchFailed : Bool,
      mark_attendance_qr students bindings attendance device_id today nowTime
          roll name branch user_lat user_lon
        = ⟨.unknownIdentity rollFailed nameFailed branchFailed, bindings, attendance⟩
      ∧ (rollFailed = true ↔
          ∀ s ∈ trimStudents students, pyLower s.rollnumber ≠ pyLower (pyTrim roll))
      ∧ (nameFailed = true ↔
          ∀ s ∈ trimStudents students, pyLower s.studentname ≠ pyLower (pyTrim name))
      ∧ (branchFailed = true ↔
          ∀ s ∈ trimStudents students, pyLower s.branch ≠ pyLower (pyTrim branch)) := by
  have hstud : (findStudent (trimStudents students) (pyTrim roll) (pyTrim name)
      (pyTrim branch)).isEmpty = true := by
    rw [List.isEmpty_iff]
    unfold findStudent
    rw [List.filter_eq_nil_iff]
    intro s hs
    simp only [Bool.and_eq_true, lowerEq_eq_true_iff, not_and]
    intro h1 h2 h3
    exact hnone s hs ⟨h1, h2, h3⟩
  refine ⟨rollNoMatch (trimStudents students) (pyTrim roll),
    nameNoMatch (trimStudents students) (pyTrim name),
    branchNoMatch (trimStudents students) (pyTrim branch),
    mark_fail_identity students bindings attendance device_id today nowTime
      roll name branch user_lat user_lon hstud, ?_, ?_, ?_⟩
  · unfold rollNoMatch
    rw [List.isEmpty_iff, List.filter_eq_nil_iff]
    constructor
    · intro h s hs
      have := h s hs
      rwa [lowerEq_eq_true_iff] at this
    · intro h s hs
      rw [lowerEq_eq_true_iff]
      exact h s hs
  · unfold nameNoMatch
    rw [List.isEmpty_iff, List.filter_eq_nil_iff]
    constructor
    · intro h s hs
      have := h s hs
      rwa [lowerEq_eq_true_iff] at this
    · intro h s hs
      rw [lowerEq_eq_true_iff]
      exact h s hs
  · unfold branchNoMatch
    rw [List.isEmpty_iff, List.filter_eq_nil_iff]
    constructor
    · intro h s hs
      have := h s hs
      rwa [lowerEq_eq_true_iff] at this
    · intro h s hs
      rw [lowerEq_eq_true_iff]
      exact h s hs

/-- Witness for C7: a roster holding ("b9", "xx", "cse"); the request
("a1", "xx", "ece") matches no row, and the resulting diagnostic flags
say the roll and branch individually failed while the name did not. -/
theorem unknown_identity_diagnoses_fields_witness :
    (∀ s ∈ trimStudents [⟨"b9", "xx", "cse"⟩],
      ¬(pyLower s.rollnumber = pyLower (pyTrim "a1")
        ∧ pyLower s.studentname = pyLower (pyTrim "xx")
        ∧ pyLower s.branch = pyLower (pyTrim "ece")))
    ∧ ∃ rollFailed nameFailed branchFailed : Bool,
      mark_attendance_qr [⟨"b9", "xx", "cse"⟩] [] [] "D1" "2025-01-02" "09:00:00"
          "a1" "xx" "ece" none none
        = ⟨.unknownIdentity rollFailed nameFailed branchFailed, [], []⟩
      ∧ (rollFailed = true ↔
          ∀ s ∈ trimStudents [⟨"b9", "xx", "cse"⟩], pyLower s.rollnumber ≠ pyLower (pyTrim "a1"))
      ∧ (nameFailed = true ↔
          ∀ s ∈ trimStudents [⟨"b9", "xx", "cse"⟩], pyLower s.studentname ≠ pyLower (pyTrim "xx"))
      ∧ (branchFailed = true ↔
          ∀ s ∈ trimStudents [⟨"b9", "xx", "cse"⟩], pyLower s.branch ≠ pyLower (pyTrim "ece")) :=
  ⟨by decide,
   unknown_identity_diagnoses_fields [⟨"b9", "xx", "cse"⟩] [] [] "D1" "2025-01-02" "09:00:00"
     "a1" "xx" "ece" none none (by decide)⟩

/-- A roll number's binding lookup in the table left by devWrite finds
a row carrying the presented device whenever the original lookup's
row, if any, carried it. -/
theorem devWrite_head (bindings : List DeviceBinding) (r device_id : String)
    (hdev : ∀ row ∈ (findBinding bindings r).head?, row.device_id = device_id) :
    ∃ row : DeviceBinding,
      (findBinding (devWrite bindings r device_id) r).head? = some row
      ∧ row.device_id = device_id := by
  unfold devWrite
  cases hb : (findBinding bindings r).head? with
  | some row0 =>
    exact ⟨row0, hb, hdev row0 (by rw [hb]; rfl)⟩
  | none =>
    have hnil : findBinding bindings r = [] := List.head?_eq_none_iff.mp hb
    have hone : findBinding (bindings ++ [⟨r, device_id⟩]) r = [⟨r, device_id⟩] := by
      unfold findBinding at hnil ⊢
      rw [List.filter_append, hnil]
      simp [lowerEq]
    exact ⟨⟨r, device_id⟩, by rw [hone]; rfl, rfl⟩

/-! ## Claim C5 -/

/-- C5: when the binding table has a row for the claimed roll number,
the check-in is rejected with the device-mismatch outcome if that
row's device differs from the presented one, and the device check
accepts if it is the same device; the binding table is unchanged in
both cases. -/
theorem bound_roll_device_check (students : List Student) (bindings : List DeviceBinding)
    (attendance : List AttRecord) (device_id today nowTime roll name branch : String)
    (la lo : ℝ) (row : DeviceBinding)
    (hstud : (findStudent (trimStudents students) (pyTrim roll) (pyTrim name)
        (pyTrim branch)).isEmpty = false)
    (hloc : calculate_distance COLLEGE_LATITUDE COLLEGE_LONGITUDE la lo ≤
        ALLOWED_RADIUS_METERS)
    (hrow : (findBinding bindings (pyTrim roll)).head? = some row) :
    (row.device_id ≠ device_id →
      mark_attendance_qr students bindings attendance device_id today nowTime
          roll name branch (some la) (some lo)
        = ⟨.deviceMismatch, bindings, attendance⟩)
    ∧ (row.device_id = device_id →
      (mark_attendance_qr students bindings attendance device_id today nowTime
          roll name branch (some la) (some lo)).bindings = bindings
      ∧ (mark_attendance_qr students bindings attendance device_id today nowTime
          roll name branch (some la) (some lo)).reason ≠ .deviceMismatch) := by
  rw [mark_pass students bindings attendance device_id today nowTime roll name branch la lo
    hstud (not_lt.mpr hloc)]
  constructor
  · intro hne
    unfold deviceStage
    rw [hrow]
    dsimp only
    rw [if_pos hne]
  · intro heq
    have hpass : deviceStage bindings attendance device_id today nowTime (pyTrim roll)
        (pyTrim name) la lo (calculate_distance COLLEGE_LATITUDE COLLEGE_LONGITUDE la lo)
        = dupStage bindings attendance today nowTime (pyTrim roll) (pyTrim name) la lo
            (calculate_distance COLLEGE_LATITUDE COLLEGE_LONGITUDE la lo) := by
      unfold deviceStage
      rw [hrow]
      dsimp only
      rw [if_neg (not_not_intro heq)]
    rw [hpass]
    unfold dupStage
    split_ifs with hm
    · exact ⟨rfl, fun h => Reason.noConfusion h⟩
    · exact ⟨rfl, fun h => Reason.noConfusion h⟩

/-- Witness for C5 with the binding ("a1", "D1") present: presenting
device "D2" is rejected with the table untouched, presenting "D1"
passes the device check. -/
theorem bound_roll_device_check_witness :
    ((findStudent (trimStudents [⟨"a1", "nn", "cse"⟩]) (pyTrim "a1") (pyTrim "nn")
        (pyTrim "cse")).isEmpty = false)
    ∧ (calculate_distance COLLEGE_LATITUDE COLLEGE_LONGITUDE COLLEGE_LATITUDE
        COLLEGE_LONGITUDE ≤ ALLOWED_RADIUS_METERS)
    ∧ ((findBinding [⟨"a1", "D1"⟩] (pyTrim "a1")).head? = some ⟨"a1", "D1"⟩)
    ∧ ((DeviceBinding.mk "a1" "D1").device_id ≠ "D2" →
        mark_attendance_qr [⟨"a1", "nn", "cse"⟩] [⟨"a1", "D1"⟩] [] "D2" "2025-01-02"
            "09:00:00" "a1" "nn" "cse" (some COLLEGE_LATITUDE) (some COLLEGE_LONGITUDE)
          = ⟨.deviceMismatch, [⟨"a1", "D1"⟩], []⟩)
    ∧ ((DeviceBinding.mk "a1" "D1").device_id = "D1" →
        (mark_attendance_qr [⟨"a1", "nn", "cse"⟩] [⟨"a1", "D1"⟩] [] "D1" "2025-01-02"
            "09:00:00" "a1" "nn" "cse" (some COLLEGE_LATITUDE) (some COLLEGE_LONGITUDE)).bindings
          = [⟨"a1", "D1"⟩]
        ∧ (mark_attendance_qr [⟨"a1", "nn", "cse"⟩] [⟨"a1", "D1"⟩] [] "D1" "2025-01-02"
            "09:00:00" "a1" "nn" "cse" (some COLLEGE_LATITUDE) (some COLLEGE_LONGITUDE)).reason
          ≠ .deviceMismatch) :=
  ⟨by decide,
   by rw [calculate_distance_self]; unfold ALLOWED_RADIUS_METERS; norm_num,
   by decide,
   (bound_roll_device_check [⟨"a1", "nn", "cse"⟩] [⟨"a1", "D1"⟩] [] "D2" "2025-01-02"
     "09:00:00" "a1" "nn" "cse" COLLEGE_LATITUDE COLLEGE_LONGITUDE ⟨"a1", "D1"⟩
     (by decide) (by rw [calculate_distance_self]; unfold ALLOWED_RADIUS_METERS; norm_num)
     (by decide)).1,
   (bound_roll_device_check [⟨"a1", "nn", "cse"⟩] [⟨"a1", "D1"⟩] [] "D1" "2025-01-02"
     "09:00:00" "a1" "nn" "cse" COLLEGE_LATITUDE COLLEGE_LONGITUDE ⟨"a1", "D1"⟩
     (by decide) (by rw [calculate_distance_self]; unfold ALLOWED_RADIUS_METERS; norm_num)
     (by decide)).2⟩

/-! ## Claim C6 -/

/-- C6: a successful admission appends exactly one attendance record,
carrying the claimed (trimmed) roll number, today's date and the
current time, and leaves every previously existing ledger row intact
(the new ledger is the old one with the single record appended). -/
theorem success_appends_exactly_one (students : List Student) (bindings : List DeviceBinding)
    (attendance : List AttRecord) (device_id today nowTime roll name branch : String)
    (la lo : ℝ)
    (hstud : (findStudent (trimStudents students) (pyTrim roll) (pyTrim name)
        (pyTrim branch)).isEmpty = false)
    (hloc : calculate_distance COLLEGE_LATITUDE COLLEGE_LONGITUDE la lo ≤
        ALLOWED_RADIUS_METERS)
    (hdev : ∀ row ∈ (findBinding bindings (pyTrim roll)).head?, row.device_id = device_id)
    (hfresh : (findMarked attendance (pyTrim roll) today).isEmpty = true) :
    (mark_attendance_qr students bindings attendance device_id today nowTime
        roll name branch (some la) (some lo)).reason
      = .success (calculate_distance COLLEGE_LATITUDE COLLEGE_LONGITUDE la lo)
    ∧ (mark_attendance_qr students bindings attendance device_id today nowTime
        roll name branch (some la) (some lo)).attendance
      = attendance ++ [⟨pyTrim roll, pyTrim name, nowTime, today, (la, lo),
          ⌊calculate_distance COLLEGE_LATITUDE COLLEGE_LONGITUDE la lo⌋⟩]
    ∧ (mark_attendance_qr students bindings attendance device_id today nowTime
        roll name branch (some la) (some lo)).attendance.length
      = attendance.length + 1 := by
  rw [mark_pass students bindings attendance device_id today nowTime roll name branch la lo
    hstud (not_lt.mpr hloc)]
  rw [deviceStage_pass bindings attendance device_id today nowTime (pyTrim roll)
    (pyTrim name) la lo _ hdev]
  rw [dupStage_fresh _ attendance today nowTime (pyTrim roll) (pyTrim name) la lo _ hfresh]
  refine ⟨rfl, rfl, ?_⟩
  simp

/-- Witness for C6 on the empty ledger: admitting roster student "a1"
from the college coordinates appends the one expected record. -/
theorem success_appends_exactly_one_witness :
    ((findStudent (trimStudents [⟨"a1", "nn", "cse"⟩]) (pyTrim "a1") (pyTrim "nn")
        (pyTrim "cse")).isEmpty = false)
    ∧ ((findMarked [] (pyTrim "a1") "2025-01-02").isEmpty = true)
    ∧ (mark_attendance_qr [⟨"a1", "nn", "cse"⟩] [] [] "D1" "2025-01-02" "09:00:00"
        "a1" "nn" "cse" (some COLLEGE_LATITUDE) (some COLLEGE_LONGITUDE)).reason
      = .success (calculate_distance COLLEGE_LATITUDE COLLEGE_LONGITUDE COLLEGE_LATITUDE
          COLLEGE_LONGITUDE)
    ∧ (mark_attendance_qr [⟨"a1", "nn", "cse"⟩] [] [] "D1" "2025-01-02" "09:00:00"
        "a1" "nn" "cse" (some COLLEGE_LATITUDE) (some COLLEGE_LONGITUDE)).attendance.length
      = List.length ([] : List AttRecord) + 1 :=
  ⟨by decide, by decide,
   (success_appends_exactly_one [⟨"a1", "nn", "cse"⟩] [] [] "D1" "2025-01-02" "09:00:00"
     "a1" "nn" "cse" COLLEGE_LATITUDE COLLEGE_LONGITUDE (by decide)
     (by rw [calculate_distance_self]; unfold ALLOWED_RADIUS_METERS; norm_num)
     (by simp [findBinding]) (by decide)).1,
   (success_appends_exactly_one [⟨"a1", "nn", "cse"⟩] [] [] "D1" "2025-01-02" "09:00:00"
     "a1" "nn" "cse" COLLEGE_LATITUDE COLLEGE_LONGITUDE (by decide)
     (by rw [calculate_distance_self]; unfold ALLOWED_RADIUS_METERS; norm_num)
     (by simp [findBinding]) (by decide)).2.2⟩

/-! ## Claim C4 -/

/-- C4: admitting the same (roll number, date) twice in a row accepts
the first request and rejects the second with the already-marked
outcome, comparing the roll number case-insensitively; the second
call adds no ledger record. -/
theorem admit_twice_second_already_marked (students : List Student)
    (bindings : List DeviceBinding) (attendance : List AttRecord)
    (device_id today nowTime roll name branch roll2 : String) (la lo : ℝ)
    (hstud : (findStudent (trimStudents students) (pyTrim roll) (pyTrim name)
        (pyTrim branch)).isEmpty = false)
    (hloc : calculate_distance COLLEGE_LATITUDE COLLEGE_LONGITUDE la lo ≤
        ALLOWED_RADIUS_METERS)
    (hdev : ∀ row ∈ (findBinding bindings (pyTrim roll)).head?, row.device_id = device_id)
    (hfresh : (findMarked attendance (pyTrim roll) today).isEmpty = true)
    (hroll2 : pyLower (pyTrim roll2) = pyLower (pyTrim roll)) :
    let out1 := mark_attendance_qr students bindings attendance device_id today nowTime
      roll name branch (some la) (some lo)
    let out2 := mark_attendance_qr students out1.bindings out1.attendance device_id today
      nowTime roll2 name branch (some la) (some lo)
    (∃ d, out1.reason = Reason.success d)
    ∧ out2.reason = Reason.alreadyMarked
    ∧ out2.attendance = out1.attendance := by
  intro out1 out2
  obtain ⟨row1, hrow1, hrowdev⟩ := devWrite_head bindings (pyTrim roll) device_id hdev
  have h1 : out1 = ⟨.success (calculate_distance COLLEGE_LATITUDE COLLEGE_LONGITUDE la lo),
      devWrite bindings (pyTrim roll) device_id,
      attendance ++ [⟨pyTrim roll, pyTrim name, nowTime, today, (la, lo),
        ⌊calculate_distance COLLEGE_LATITUDE COLLEGE_LONGITUDE la lo⌋⟩]⟩ := by
    show mark_attendance_qr students bindings attendance device_id today nowTime
      roll name branch (some la) (some lo) = _
    rw [mark_pass students bindings attendance device_id today nowTime roll name branch
      la lo hstud (not_lt.mpr hloc)]
    rw [deviceStage_pass bindings attendance device_id today nowTime (pyTrim roll)
      (pyTrim name) la lo _ hdev]
    rw [dupStage_fresh _ attendance today nowTime (pyTrim roll) (pyTrim name) la lo _ hfresh]
  have hb1 : out1.bindings = devWrite bindings (pyTrim roll) device_id := by rw [h1]
  have ha1 : out1.attendance = attendance ++
      [⟨pyTrim roll, pyTrim name, nowTime, today, (la, lo),
        ⌊calculate_distance COLLEGE_LATITUDE COLLEGE_LONGITUDE la lo⌋⟩] := by rw [h1]
  have hstud2 : (findStudent (trimStudents students) (pyTrim roll2) (pyTrim name)
      (pyTrim branch)).isEmpty = false := by
    rw [findStudent_congr_roll (trimStudents students) hroll2 (pyTrim name) (pyTrim branch)]
    exact hstud
  have hdev2 : ∀ row ∈ (findBinding out1.bindings (pyTrim roll2)).head?,
      row.device_id = device_id := by
    rw [hb1, findBinding_congr (devWrite bindings (pyTrim roll) device_id) hroll2]
    intro row hr
    rw [Option.mem_def, hrow1] at hr
    injection hr with hh
    rw [← hh]
    exact hrowdev
  have hmark2 : (findMarked out1.attendance (pyTrim roll2) today).isEmpty = false := by
    rw [ha1, findMarked_congr _ hroll2 today]
    unfold findMarked at hfresh ⊢
    rw [List.filter_append, List.isEmpty_iff.mp hfresh]
    simp [lowerEq]
  have h2 : out2 = ⟨.alreadyMarked,
      devWrite out1.bindings (pyTrim roll2) device_id, out1.attendance⟩ := by
    show mark_attendance_qr students out1.bindings out1.attendance device_id today nowTime
      roll2 name branch (some la) (some lo) = _
    rw [mark_pass students out1.bindings out1.attendance device_id today nowTime roll2 name
      branch la lo hstud2 (not_lt.mpr hloc)]
    rw [deviceStage_pass out1.bindings out1.attendance device_id today nowTime (pyTrim roll2)
      (pyTrim name) la lo _ hdev2]
    rw [dupStage_dup _ out1.attendance today nowTime (pyTrim roll2) (pyTrim name) la lo
      _ hmark2]
  exact ⟨⟨calculate_distance COLLEGE_LATITUDE COLLEGE_LONGITUDE la lo, by rw [h1]⟩,
    by rw [h2], by rw [h2]⟩

/-- Witness for C4: student "A1" admitted once from the college
coordinates, then the same identity re-submitted as "a1" the same
day: the first call succeeds, the second reports already-marked and
leaves the ledger as the first call wrote it. -/
theorem admit_twice_second_already_marked_witness :
    ((findStudent (trimStudents [⟨"A1", "nn", "cse"⟩]) (pyTrim "A1") (pyTrim "nn")
        (pyTrim "cse")).isEmpty = false)
    ∧ (pyLower (pyTrim "a1") = pyLower (pyTrim "A1"))
    ∧ (let out1 := mark_attendance_qr [⟨"A1", "nn", "cse"⟩] [] [] "D1" "2025-01-02"
          "09:00:00" "A1" "nn" "cse" (some COLLEGE_LATITUDE) (some COLLEGE_LONGITUDE)
       let out2 := mark_attendance_qr [⟨"A1", "nn", "cse"⟩] out1.bindings out1.attendance
          "D1" "2025-01-02" "09:00:00" "a1" "nn" "cse" (some COLLEGE_LATITUDE)
          (some COLLEGE_LONGITUDE)
       (∃ d, out1.reason = Reason.success d)
       ∧ out2.reason = Reason.alreadyMarked
       ∧ out2.attendance = out1.attendance) :=
  ⟨by decide, by decide,
   admit_twice_second_already_marked [⟨"A1", "nn", "cse"⟩] [] [] "D1" "2025-01-02"
     "09:00:00" "A1" "nn" "cse" "a1" COLLEGE_LATITUDE COLLEGE_LONGITUDE (by decide)
     (by rw [calculate_distance_self]; unfold ALLOWED_RADIUS_METERS; norm_num)
     (by simp [findBinding]) (by decide) (by decide)⟩

/-- When the claimed roll has no binding row at all, the device-stage
precondition holds vacuously. -/
theorem hdev_of_none {bindings : List DeviceBinding} {r : String} (device_id : String)
    (h : (findBinding bindings r).head? = none) :
    ∀ row ∈ (findBinding bindings r).head?, row.device_id = device_id := by
  intro row hr
  rw [Option.mem_def, h] at hr
  cases hr

/-! ## Claim C2 -/

/-- C2 counterexample: with the table binding device "D1" to roll
"a1", a check-in by the unbound roll "a2" presenting that same device
"D1" is accepted, and a second row ("a2", "D1") is appended, so the
device now maps to two roll numbers; no device-already-bound
rejection occurs, contradicting the claimed bijection enforcement. -/
theorem device_bijection_counterexample :
    (mark_attendance_qr [⟨"a2", "nn", "cse"⟩] [⟨"a1", "D1"⟩] [] "D1" "2025-01-02"
        "09:00:00" "a2" "nn" "cse" (some COLLEGE_LATITUDE) (some COLLEGE_LONGITUDE)).reason
      = .success 0
    ∧ (mark_attendance_qr [⟨"a2", "nn", "cse"⟩] [⟨"a1", "D1"⟩] [] "D1" "2025-01-02"
        "09:00:00" "a2" "nn" "cse" (some COLLEGE_LATITUDE) (some COLLEGE_LONGITUDE)).bindings
      = [⟨"a1", "D1"⟩, ⟨"a2", "D1"⟩] := by
  have hloc : ¬ (calculate_distance COLLEGE_LATITUDE COLLEGE_LONGITUDE COLLEGE_LATITUDE
      COLLEGE_LONGITUDE > ALLOWED_RADIUS_METERS) := by
    rw [calculate_distance_self]
    unfold ALLOWED_RADIUS_METERS
    norm_num
  have hnone : (findBinding [⟨"a1", "D1"⟩] (pyTrim "a2")).head? = none := by decide
  rw [mark_pass [⟨"a2", "nn", "cse"⟩] [⟨"a1", "D1"⟩] [] "D1" "2025-01-02" "09:00:00"
    "a2" "nn" "cse" COLLEGE_LATITUDE COLLEGE_LONGITUDE (by decide) hloc]
  rw [deviceStage_pass [⟨"a1", "D1"⟩] [] "D1" "2025-01-02" "09:00:00" (pyTrim "a2")
    (pyTrim "nn") COLLEGE_LATITUDE COLLEGE_LONGITUDE _ (hdev_of_none "D1" hnone)]
  rw [dupStage_fresh _ [] "2025-01-02" "09:00:00" (pyTrim "a2") (pyTrim "nn")
    COLLEGE_LATITUDE COLLEGE_LONGITUDE _ (by decide)]
  rw [calculate_distance_self]
  exact ⟨rfl, by decide⟩

/-- C2 amended: only the roll-number direction of the binding table is
enforced.  A check-in whose roll number is unbound is accepted past
the device stage and a new (roll, device) row is appended even when
the presented device is already bound to a different roll number; the
table is kept functional from roll numbers to devices but not
injective in the other direction, and no device-already-bound
rejection exists. -/
theorem unbound_roll_always_binds (students : List Student) (bindings : List DeviceBinding)
    (attendance : List AttRecord) (device_id today nowTime roll name branch : String)
    (la lo : ℝ)
    (hstud : (findStudent (trimStudents students) (pyTrim roll) (pyTrim name)
        (pyTrim branch)).isEmpty = false)
    (hloc : calculate_distance COLLEGE_LATITUDE COLLEGE_LONGITUDE la lo ≤
        ALLOWED_RADIUS_METERS)
    (hunbound : findBinding bindings (pyTrim roll) = [])
    (_htaken : ∃ b0 ∈ bindings, b0.device_id = device_id) :
    (mark_attendance_qr students bindings attendance device_id today nowTime
        roll name branch (some la) (some lo)).bindings
      = bindings ++ [⟨pyTrim roll, device_id⟩]
    ∧ ((mark_attendance_qr students bindings attendance device_id today nowTime
          roll name branch (some la) (some lo)).reason = .alreadyMarked
       ∨ ∃ d, (mark_attendance_qr students bindings attendance device_id today nowTime
          roll name branch (some la) (some lo)).reason = .success d) := by
  have hnone : (findBinding bindings (pyTrim roll)).head? = none := by
    rw [hunbound]
    rfl
  rw [mark_pass students bindings attendance device_id today nowTime roll name branch la lo
    hstud (not_lt.mpr hloc)]
  rw [deviceStage_pass bindings attendance device_id today nowTime (pyTrim roll)
    (pyTrim name) la lo _ (hdev_of_none device_id hnone)]
  have hdw : devWrite bindings (pyTrim roll) device_id
      = bindings ++ [⟨pyTrim roll, device_id⟩] := by
    unfold devWrite
    rw [hnone]
  rw [hdw]
  unfold dupStage
  split_ifs with hm
  · exact ⟨rfl, Or.inr ⟨_, rfl⟩⟩
  · exact ⟨rfl, Or.inl rfl⟩

/-- Witness for the amended C2, at the counterexample's own state:
roll "a2" is unbound, device "D1" is bound to "a1", and the call
appends ("a2", "D1"). -/
theorem unbound_roll_always_binds_witness :
    ((findStudent (trimStudents [⟨"a2", "nn", "cse"⟩]) (pyTrim "a2") (pyTrim "nn")
        (pyTrim "cse")).isEmpty = false)
    ∧ (findBinding [⟨"a1", "D1"⟩] (pyTrim "a2") = [])
    ∧ (∃ b0 ∈ ([⟨"a1", "D1"⟩] : List DeviceBinding), b0.device_id = "D1")
    ∧ (mark_attendance_qr [⟨"a2", "nn", "cse"⟩] [⟨"a1", "D1"⟩] [] "D1" "2025-01-02"
        "09:00:00" "a2" "nn" "cse" (some COLLEGE_LATITUDE) (some COLLEGE_LONGITUDE)).bindings
      = [⟨"a1", "D1"⟩] ++ [⟨pyTrim "a2", "D1"⟩] :=
  ⟨by decide, by decide, ⟨⟨"a1", "D1"⟩, by decide, rfl⟩,
   (unbound_roll_always_binds [⟨"a2", "nn", "cse"⟩] [⟨"a1", "D1"⟩] [] "D1" "2025-01-02"
     "09:00:00" "a2" "nn" "cse" COLLEGE_LATITUDE COLLEGE_LONGITUDE (by decide)
     (by rw [calculate_distance_self]; unfold ALLOWED_RADIUS_METERS; norm_num)
     (by decide) ⟨⟨"a1", "D1"⟩, by decide, rfl⟩).1⟩

/-! ## Claim C3 -/

/-- C3 counterexample: student "a1" is already marked today and not
yet device-bound.  The check-in is rejected by the duplicate check,
yet the rejected call has appended the binding ("a1", "D1") to the
previously empty device-binding table, so a rejected check-in does
not leave both stores unchanged. -/
theorem rejected_checkin_still_binds_counterexample :
    (mark_attendance_qr [⟨"a1", "nn", "cse"⟩] []
        [⟨"a1", "nn", "08:00:00", "2025-01-02", ((0 : ℝ), (0 : ℝ)), 0⟩] "D1" "2025-01-02"
        "09:00:00" "a1" "nn" "cse" (some COLLEGE_LATITUDE) (some COLLEGE_LONGITUDE)).reason
      = .alreadyMarked
    ∧ (mark_attendance_qr [⟨"a1", "nn", "cse"⟩] []
        [⟨"a1", "nn", "08:00:00", "2025-01-02", ((0 : ℝ), (0 : ℝ)), 0⟩] "D1" "2025-01-02"
        "09:00:00" "a1" "nn" "cse" (some COLLEGE_LATITUDE) (some COLLEGE_LONGITUDE)).bindings
      = [⟨"a1", "D1"⟩] := by
  have hloc : ¬ (calculate_distance COLLEGE_LATITUDE COLLEGE_LONGITUDE COLLEGE_LATITUDE
      COLLEGE_LONGITUDE > ALLOWED_RADIUS_METERS) := by
    rw [calculate_distance_self]
    unfold ALLOWED_RADIUS_METERS
    norm_num
  have hnone : (findBinding [] (pyTrim "a1")).head? = none := by decide
  rw [mark_pass [⟨"a1", "nn", "cse"⟩] []
    [⟨"a1", "nn", "08:00:00", "2025-01-02", ((0 : ℝ), (0 : ℝ)), 0⟩] "D1" "2025-01-02"
    "09:00:00" "a1" "nn" "cse" COLLEGE_LATITUDE COLLEGE_LONGITUDE (by decide) hloc]
  rw [deviceStage_pass [] _ "D1" "2025-01-02" "09:00:00" (pyTrim "a1") (pyTrim "nn")
    COLLEGE_LATITUDE COLLEGE_LONGITUDE _ (hdev_of_none "D1" hnone)]
  rw [dupStage_dup _ _ "2025-01-02" "09:00:00" (pyTrim "a1") (pyTrim "nn")
    COLLEGE_LATITUDE COLLEGE_LONGITUDE _ ?hm]
  case hm =>
    unfold findMarked
    decide
  exact ⟨rfl, by decide⟩

/-- C3 amended: every rejection except possibly the duplicate
rejection leaves both stores unchanged, and the ledger is written
only on the accept path; but a check-in rejected by the duplicate
check (which runs after the device-binding write) may still have
appended a first-encounter device binding. -/
theorem mark_frame_on_rejection (students : List Student) (bindings : List DeviceBinding)
    (attendance : List AttRecord) (device_id today nowTime roll name branch : String)
    (user_lat user_lon : Option ℝ) :
    let out := mark_attendance_qr students bindings attendance device_id today nowTime
      roll name branch user_lat user_lon
    ((out.bindings = bindings ∧ out.attendance = attendance)
      ∨ out.reason = Reason.alreadyMarked ∨ ∃ d, out.reason = Reason.success d)
    ∧ (out.attendance = attendance ∨ ∃ d, out.reason = Reason.success d) := by
  intro out
  cases hstud : (findStudent (trimStudents students) (pyTrim roll) (pyTrim name)
      (pyTrim branch)).isEmpty with
  | true =>
    have h : out = ⟨.unknownIdentity (rollNoMatch (trimStudents students) (pyTrim roll))
        (nameNoMatch (trimStudents students) (pyTrim name))
        (branchNoMatch (trimStudents students) (pyTrim branch)), bindings, attendance⟩ :=
      mark_fail_identity students bindings attendance device_id today nowTime roll name
        branch user_lat user_lon hstud
    exact ⟨Or.inl ⟨by rw [h], by rw [h]⟩, Or.inl (by rw [h])⟩
  | false =>
    cases user_lat with
    | none =>
      have h : out = ⟨.locationRequired, bindings, attendance⟩ := by
        show mark_attendance_qr students bindings attendance device_id today nowTime
          roll name branch none user_lon = _
        simp only [mark_attendance_qr, hstud, Bool.false_eq_true, if_false]
      exact ⟨Or.inl ⟨by rw [h], by rw [h]⟩, Or.inl (by rw [h])⟩
    | some la =>
      cases user_lon with
      | none =>
        have h : out = ⟨.locationRequired, bindings, attendance⟩ := by
          show mark_attendance_qr students bindings attendance device_id today nowTime
            roll name branch (some la) none = _
          simp only [mark_attendance_qr, hstud, Bool.false_eq_true, if_false]
        exact ⟨Or.inl ⟨by rw [h], by rw [h]⟩, Or.inl (by rw [h])⟩
      | some lo =>
        by_cases hloc : calculate_distance COLLEGE_LATITUDE COLLEGE_LONGITUDE la lo >
            ALLOWED_RADIUS_METERS
        · have h : out = ⟨.locationTooFar (calculate_distance COLLEGE_LATITUDE
              COLLEGE_LONGITUDE la lo), bindings, attendance⟩ := by
            show mark_attendance_qr students bindings attendance device_id today nowTime
              roll name branch (some la) (some lo) = _
            simp only [mark_attendance_qr, hstud, Bool.false_eq_true, if_false, if_pos hloc]
          exact ⟨Or.inl ⟨by rw [h], by rw [h]⟩, Or.inl (by rw [h])⟩
        · have h : out = deviceStage bindings attendance device_id today nowTime
              (pyTrim roll) (pyTrim name) la lo
              (calculate_distance COLLEGE_LATITUDE COLLEGE_LONGITUDE la lo) :=
            mark_pass students bindings attendance device_id today nowTime roll name branch
              la lo hstud hloc
          cases hb : (findBinding bindings (pyTrim roll)).head? with
          | some row =>
            by_cases hd : row.device_id = device_id
            · have h2 : out = dupStage bindings attendance today nowTime (pyTrim roll)
                  (pyTrim name) la lo
                  (calculate_distance COLLEGE_LATITUDE COLLEGE_LONGITUDE la lo) := by
                rw [h]
                unfold deviceStage
                rw [hb]
                dsimp only
                rw [if_neg (not_not_intro hd)]
              cases hm : (findMarked attendance (pyTrim roll) today).isEmpty with
              | true =>
                rw [dupStage_fresh bindings attendance today nowTime (pyTrim roll)
                  (pyTrim name) la lo _ hm] at h2
                exact ⟨Or.inr (Or.inr ⟨_, by rw [h2]⟩), Or.inr ⟨_, by rw [h2]⟩⟩
              | false =>
                rw [dupStage_dup bindings attendance today nowTime (pyTrim roll)
                  (pyTrim name) la lo _ hm] at h2
                exact ⟨Or.inr (Or.inl (by rw [h2])), Or.inl (by rw [h2])⟩
            · have h2 : out = ⟨.deviceMismatch, bindings, attendance⟩ := by
                rw [h]
                unfold deviceStage
                rw [hb]
                dsimp only
                rw [if_pos hd]
              exact ⟨Or.inl ⟨by rw [h2], by rw [h2]⟩, Or.inl (by rw [h2])⟩
          | none =>
            have h2 : out = dupStage (bindings ++ [⟨pyTrim roll, device_id⟩]) attendance
                today nowTime (pyTrim roll) (pyTrim name) la lo
                (calculate_distance COLLEGE_LATITUDE COLLEGE_LONGITUDE la lo) := by
              rw [h]
              unfold deviceStage
              rw [hb]
            cases hm : (findMarked attendance (pyTrim roll) today).isEmpty with
            | true =>
              rw [dupStage_fresh _ attendance today nowTime (pyTrim roll) (pyTrim name)
                la lo _ hm] at h2
              exact ⟨Or.inr (Or.inr ⟨_, by rw [h2]⟩), Or.inr ⟨_, by rw [h2]⟩⟩
            | false =>
              rw [dupStage_dup _ attendance today nowTime (pyTrim roll) (pyTrim name)
                la lo _ hm] at h2
              exact ⟨Or.inr (Or.inl (by rw [h2])), Or.inl (by rw [h2])⟩

/-! ## Claim C10 -/

/-- The kilometre-based haversine of check_location_in_range measures
exactly 1/1000 of the metre-based calculate_distance taken from its
own hard-coded campus centre. -/
theorem in_range_snd_eq (user_lat user_lon : ℝ) :
    calculate_distance 17.3850 78.4867 user_lat user_lon
      = 1000 * (check_location_in_range user_lat user_lon).2 := by
  simp only [calculate_distance, check_location_in_range]
  have h1 : radians user_lat - radians 17.3850 = radians (user_lat - 17.3850) :=
    radians_sub user_lat 17.3850
  have h2 : radians user_lon - radians 78.4867 = radians (user_lon - 78.4867) :=
    radians_sub user_lon 78.4867
  rw [h1, h2]
  ring

/-- C10 amended: the kilometre-based geofence agrees in scale with the
metre-based haversine but uses its own campus centre: its in-range
boolean equals the 500 m test of calculate_distance taken from
(17.3850, 78.4867), not from the (17.385044, 78.486671) centre that
check_location uses, and the two predicates disagree near the 500 m
boundary. -/
theorem in_range_is_haversine_at_own_center (user_lat user_lon : ℝ) :
    (check_location_in_range user_lat user_lon).1 ↔
      calculate_distance 17.3850 78.4867 user_lat user_lon ≤ 500 := by
  have hkey := in_range_snd_eq user_lat user_lon
  have hsnd : (check_location_in_range user_lat user_lon).1 ↔
      (check_location_in_range user_lat user_lon).2 ≤ 0.5 := by
    simp only [check_location_in_range]
  rw [hsnd, hkey]
  constructor
  · intro h
    linarith
  · intro h
    linarith

/-- The point (17.389536, 78.486671) sits on check_location's
meridian, about 499.5 m north of its centre: within 500 m. -/
theorem dist1_le_500 :
    calculate_distance COLLEGE_LATITUDE COLLEGE_LONGITUDE 17.389536 78.486671 ≤ 500 := by
  unfold COLLEGE_LATITUDE COLLEGE_LONGITUDE
  simp only [calculate_distance]
  have e1 : (17.389536 : ℝ) - 17.385044 = 0.004492 := by norm_num
  have e2 : (78.486671 : ℝ) - 78.486671 = 0 := by norm_num
  rw [e1, e2]
  have hr0 : radians 0 = 0 := by unfold radians; ring
  rw [hr0, zero_div, Real.sin_zero]
  rw [show ((0 : ℝ) ^ 2 = 0) by norm_num, mul_zero, add_zero]
  set x := radians 0.004492 / 2 with hxdef
  have hx : (0 : ℝ) < x := by rw [hxdef]; unfold radians; positivity
  have hxlt : x < 0.004492 * 3.141593 / 360 := by
    rw [hxdef]
    unfold radians
    have hpi := Real.pi_lt_d6
    linarith
  have hxpi : x ≤ Real.pi := by
    have h3 : (0.004492 : ℝ) * 3.141593 / 360 ≤ 3 := by norm_num
    have := Real.pi_gt_three
    linarith
  have hsin0 : 0 ≤ Real.sin x := Real.sin_nonneg_of_nonneg_of_le_pi hx.le hxpi
  have hsinle : Real.sin x ≤ x := (Real.sin_lt hx).le
  have hsinU : Real.sin x ≤ 0.004492 * 3.141593 / 360 := le_trans hsinle hxlt.le
  have hsq_le : Real.sin x ^ 2 ≤ (0.004492 * 3.141593 / 360) ^ 2 :=
    pow_le_pow_left₀ hsin0 hsinU 2
  have hlt1 : Real.sin x ^ 2 < 1 := by
    have : ((0.004492 : ℝ) * 3.141593 / 360) ^ 2 < 1 := by norm_num
    linarith
  have hpos : (0 : ℝ) < Real.sqrt (1 - Real.sin x ^ 2) := Real.sqrt_pos.mpr (by linarith)
  rw [atan2_pos_x _ _ hpos]
  have hnum : Real.sqrt (Real.sin x ^ 2) ≤ 0.004492 * 3.141593 / 360 := by
    rw [Real.sqrt_sq hsin0]
    exact hsinU
  have hden : Real.sqrt (1 - (0.004492 * 3.141593 / 360) ^ 2)
      ≤ Real.sqrt (1 - Real.sin x ^ 2) :=
    Real.sqrt_le_sqrt (by linarith)
  have hdenpos : (0 : ℝ) < Real.sqrt (1 - (0.004492 * 3.141593 / 360) ^ 2) :=
    Real.sqrt_pos.mpr (by norm_num)
  have htle : Real.sqrt (Real.sin x ^ 2) / Real.sqrt (1 - Real.sin x ^ 2)
      ≤ (0.004492 * 3.141593 / 360) / Real.sqrt (1 - (0.004492 * 3.141593 / 360) ^ 2) :=
    div_le_div₀ (by norm_num) hnum hdenpos hden
  have hs : (0.999999 : ℝ) ≤ Real.sqrt (1 - (0.004492 * 3.141593 / 360) ^ 2) := by
    rw [Real.le_sqrt (by norm_num) (by norm_num)]
    norm_num
  have hfin : (0.004492 * 3.141593 / 360) / Real.sqrt (1 - (0.004492 * 3.141593 / 360) ^ 2)
      ≤ 500 / 12742000 := by
    rw [div_le_iff₀ hdenpos]
    calc (0.004492 : ℝ) * 3.141593 / 360 ≤ 500 / 12742000 * 0.999999 := by norm_num
      _ ≤ 500 / 12742000 * Real.sqrt (1 - (0.004492 * 3.141593 / 360) ^ 2) := by
          exact mul_le_mul_of_nonneg_left hs (by norm_num)
  have harct : Real.arctan (Real.sqrt (Real.sin x ^ 2) / Real.sqrt (1 - Real.sin x ^ 2))
      ≤ 500 / 12742000 :=
    le_trans (arctan_le_self (div_nonneg (Real.sqrt_nonneg _) hpos.le)) (le_trans htle hfin)
  linarith

/-- The same point is about 504.4 m from check_location_in_range's
centre: more than 500 m. -/
theorem dist2_gt_500 :
    500 < calculate_distance 17.3850 78.4867 17.389536 78.486671 := by
  simp only [calculate_distance]
  have e1 : (17.389536 : ℝ) - 17.3850 = 0.004536 := by norm_num
  have e2 : (78.486671 : ℝ) - 78.4867 = -0.000029 := by norm_num
  rw [e1, e2, radians_neg_eq, sin_neg_half_sq]
  set g := radians 0.004536 / 2 with hgdef
  set m := radians 0.000029 / 2 with hmdef
  set c1 := Real.cos (radians 17.3850) with hc1def
  set c2 := Real.cos (radians 17.389536) with hc2def
  have hg0 : (0 : ℝ) < g := by rw [hgdef]; unfold radians; positivity
  have hgL : 0.004536 * 3.141592 / 360 < g := by
    rw [hgdef]
    unfold radians
    have := Real.pi_gt_d6
    linarith
  have hgU : g < 0.004536 * 3.141593 / 360 := by
    rw [hgdef]
    unfold radians
    have := Real.pi_lt_d6
    linarith
  have hg1 : g ≤ 1 := by
    have : (0.004536 : ℝ) * 3.141593 / 360 ≤ 1 := by norm_num
    linarith
  have hgpi : g ≤ Real.pi := by
    have := Real.pi_gt_three
    linarith
  have hm0 : (0 : ℝ) < m := by rw [hmdef]; unfold radians; positivity
  have hmU : m < 0.000029 * 3.141593 / 360 := by
    rw [hmdef]
    unfold radians
    have := Real.pi_lt_d6
    linarith
  have hmpi : m ≤ Real.pi := by
    have h3 : (0.000029 : ℝ) * 3.141593 / 360 ≤ 3 := by norm_num
    have := Real.pi_gt_three
    linarith
  have hsm0 : 0 ≤ Real.sin m := Real.sin_nonneg_of_nonneg_of_le_pi hm0.le hmpi
  have hsmle : Real.sin m ≤ m := (Real.sin_lt hm0).le
  have hsm_sq : Real.sin m ^ 2 ≤ (0.000029 * 3.141593 / 360) ^ 2 :=
    pow_le_pow_left₀ hsm0 (le_trans hsmle hmU.le) 2
  have hc1pos : 0 < c1 := by
    rw [hc1def]
    apply Real.cos_pos_of_mem_Ioo
    constructor
    · unfold radians
      nlinarith [Real.pi_pos]
    · unfold radians
      nlinarith [Real.pi_pos]
  have hc2pos : 0 < c2 := by
    rw [hc2def]
    apply Real.cos_pos_of_mem_Ioo
    constructor
    · unfold radians
      nlinarith [Real.pi_pos]
    · unfold radians
      nlinarith [Real.pi_pos]
  have hc1le : c1 ≤ 1 := by rw [hc1def]; exact Real.cos_le_one _
  have hc2le : c2 ≤ 1 := by rw [hc2def]; exact Real.cos_le_one _
  have hsing0 : 0 ≤ Real.sin g := Real.sin_nonneg_of_nonneg_of_le_pi hg0.le hgpi
  have hsingle : Real.sin g ≤ g := (Real.sin_lt hg0).le
  have hsg_sq : Real.sin g ^ 2 ≤ (0.004536 * 3.141593 / 360) ^ 2 :=
    pow_le_pow_left₀ hsing0 (le_trans hsingle hgU.le) 2
  have hccnn : 0 ≤ c1 * c2 := (mul_pos hc1pos hc2pos).le
  have hcc1 : c1 * c2 ≤ 1 := mul_le_one₀ hc1le hc2pos.le hc2le
  have ha2low : Real.sin g ^ 2 ≤ Real.sin g ^ 2 + c1 * c2 * Real.sin m ^ 2 := by
    have := mul_nonneg hccnn (sq_nonneg (Real.sin m))
    linarith
  have ha2up : Real.sin g ^ 2 + c1 * c2 * Real.sin m ^ 2 < 1 := by
    have h3 : c1 * c2 * Real.sin m ^ 2 ≤ Real.sin m ^ 2 := by
      have := mul_le_mul_of_nonneg_right hcc1 (sq_nonneg (Real.sin m))
      linarith
    have h4 : ((0.004536 : ℝ) * 3.141593 / 360) ^ 2
        + ((0.000029 : ℝ) * 3.141593 / 360) ^ 2 < 1 := by norm_num
    linarith
  have hdpos : 0 < Real.sqrt (1 - (Real.sin g ^ 2 + c1 * c2 * Real.sin m ^ 2)) :=
    Real.sqrt_pos.mpr (by linarith)
  have hdle1 : Real.sqrt (1 - (Real.sin g ^ 2 + c1 * c2 * Real.sin m ^ 2)) ≤ 1 := by
    have h5 : Real.sqrt (1 - (Real.sin g ^ 2 + c1 * c2 * Real.sin m ^ 2)) ≤ Real.sqrt 1 := by
      apply Real.sqrt_le_sqrt
      have := mul_nonneg hccnn (sq_nonneg (Real.sin m))
      have := sq_nonneg (Real.sin g)
      linarith
    rwa [Real.sqrt_one] at h5
  rw [atan2_pos_x _ _ hdpos]
  have hsq_ge : Real.sin g ≤ Real.sqrt (Real.sin g ^ 2 + c1 * c2 * Real.sin m ^ 2) := by
    have h := Real.sqrt_le_sqrt ha2low
    rwa [Real.sqrt_sq hsing0] at h
  have ht2ge : Real.sqrt (Real.sin g ^ 2 + c1 * c2 * Real.sin m ^ 2)
      ≤ Real.sqrt (Real.sin g ^ 2 + c1 * c2 * Real.sin m ^ 2)
        / Real.sqrt (1 - (Real.sin g ^ 2 + c1 * c2 * Real.sin m ^ 2)) := by
    rw [le_div_iff₀ hdpos]
    exact mul_le_of_le_one_right (Real.sqrt_nonneg _) hdle1
  have hsing_gt : g - g ^ 3 / 4 < Real.sin g := Real.sin_gt_sub_cube hg0 hg1
  have hgcube : g ^ 3 ≤ (0.004536 * 3.141593 / 360) ^ 3 :=
    pow_le_pow_left₀ hg0.le hgU.le 3
  have hsing_lb : (0.004536 * 3.141592 / 360) - (0.004536 * 3.141593 / 360) ^ 3 / 4
      < Real.sin g := by linarith
  have hθpos : (0 : ℝ) < 500 / 12742000 := by norm_num
  have hsinθ : Real.sin (500 / 12742000) < 500 / 12742000 := Real.sin_lt hθpos
  have hcosθ : (0.999 : ℝ) ≤ Real.cos (500 / 12742000) := by
    have hb := Real.cos_bound (show |(500 : ℝ) / 12742000| ≤ 1 by
      rw [abs_of_nonneg hθpos.le]; norm_num)
    have h1 := (abs_le.mp hb).1
    rw [abs_of_nonneg hθpos.le] at h1
    norm_num at h1 ⊢
    linarith
  have htan : Real.tan (500 / 12742000) ≤ (500 / 12742000) / 0.999 := by
    rw [Real.tan_eq_sin_div_cos]
    exact div_le_div₀ hθpos.le hsinθ.le (by norm_num) hcosθ
  have htan_lt : Real.tan (500 / 12742000)
      < Real.sqrt (Real.sin g ^ 2 + c1 * c2 * Real.sin m ^ 2)
        / Real.sqrt (1 - (Real.sin g ^ 2 + c1 * c2 * Real.sin m ^ 2)) := by
    have hnum : ((500 : ℝ) / 12742000) / 0.999
        < (0.004536 * 3.141592 / 360) - (0.004536 * 3.141593 / 360) ^ 3 / 4 := by
      norm_num
    calc Real.tan (500 / 12742000) ≤ (500 / 12742000) / 0.999 := htan
      _ < (0.004536 * 3.141592 / 360) - (0.004536 * 3.141593 / 360) ^ 3 / 4 := hnum
      _ < Real.sin g := hsing_lb
      _ ≤ Real.sqrt (Real.sin g ^ 2 + c1 * c2 * Real.sin m ^ 2) := hsq_ge
      _ ≤ _ := ht2ge
  have harc : (500 : ℝ) / 12742000
      < Real.arctan (Real.sqrt (Real.sin g ^ 2 + c1 * c2 * Real.sin m ^ 2)
          / Real.sqrt (1 - (Real.sin g ^ 2 + c1 * c2 * Real.sin m ^ 2))) := by
    have h := Real.arctan_strictMono htan_lt
    have hlow : -(Real.pi / 2) < (500 : ℝ) / 12742000 := by
      have := Real.pi_pos
      linarith
    have hhigh : (500 : ℝ) / 12742000 < Real.pi / 2 := by
      have := Real.pi_gt_three
      norm_num
      linarith
    rwa [Real.arctan_tan hlow hhigh] at h
  linarith

/-- C10 counterexample: at the client coordinate
(17.389536, 78.486671) the metre-based check_location accepts while
the kilometre-based check_location_in_range rejects, so the two
geofence implementations do not decide the same predicate. -/
theorem geofence_implementations_disagree :
    (check_location 17.389536 78.486671).1
    ∧ ¬ (check_location_in_range 17.389536 78.486671).1 := by
  constructor
  · show calculate_distance COLLEGE_LATITUDE COLLEGE_LONGITUDE 17.389536 78.486671
      ≤ ALLOWED_RADIUS_METERS
    unfold ALLOWED_RADIUS_METERS
    exact dist1_le_500
  · intro hcon
    have h1 : (check_location_in_range 17.389536 78.486671).2 ≤ 0.5 := hcon
    have h2 := in_range_snd_eq 17.389536 78.486671
    have h3 := dist2_gt_500
    rw [h2] at h3
    linarith

end SmartAttendance
